import Mathlib

/-!
# Verification of the IrrigationManager water-balance core

Shallow embedding of the core of the IrrigationManager repository
(src/field.py, src/irrigation.py, src/et_correction.py, src/resample.py,
src/database/db.py, src/workflow.py) and proofs about it.

Modelling conventions:
* Python floats are modelled as rationals; a missing cell (NaN) is `Option.none`.
* Calendar dates and timestamps are modelled as integer day ordinals
  (day-granular data throughout the claims under study); where a concrete
  calendar is needed the year 2024 is used, with January 1 = day 1 and
  December 31 = day 366.
* Fallible Python code returns `Except PyError`; the error constructors
  mirror the Python exception classes the source raises.
* Python argument binding at a call site is modelled explicitly by
  `bindsOk`, because two call sites in the source pass arguments that the
  callee does not accept, which raises `TypeError` at call time.
* `pandas.DataFrame.sort_index` is modelled by the stable `List.insertionSort`
  on the date key; for the inputs appearing in counterexamples (two rows)
  the numpy sort used by pandas is also stable, so the model agrees.
-/

namespace IrrigationManager

/-- Python exception classes raised by the embedded source code. -/
inductive PyError where
  | typeError
  | valueError
  | keyError
  | attributeError
  | indexError
deriving DecidableEq, Repr

instance {ε α : Type} [DecidableEq ε] [DecidableEq α] : DecidableEq (Except ε α) :=
  fun a b =>
    match a, b with
    | .ok x, .ok y =>
      if h : x = y then isTrue (by rw [h]) else isFalse (fun hh => h (Except.ok.inj hh))
    | .error x, .error y =>
      if h : x = y then isTrue (by rw [h]) else isFalse (fun hh => h (Except.error.inj hh))
    | .ok _, .error _ => isFalse (fun hh => Except.noConfusion hh)
    | .error _, .ok _ => isFalse (fun hh => Except.noConfusion hh)

/-- ASCII lower-casing of one character, as Python's `str.lower` acts on the
ASCII soil-type names used by the source. -/
def pyLowerChar (c : Char) : Char :=
  if 'A' ≤ c ∧ c ≤ 'Z' then Char.ofNat (c.toNat + 32) else c

/-- Python's `str.lower()` on ASCII strings. -/
def pyLower (s : String) : String := String.mk (s.data.map pyLowerChar)

/-- Python argument binding: a call with `npos` positional arguments and the
given keyword names binds successfully against a parameter list consisting of
`required` parameters (no default) followed by `optional` parameters (with a
default).  It fails when there are too many positional arguments, when an
unexpected keyword is passed, or when a required parameter is left unbound. -/
def bindsOk (required optional : List String) (npos : Nat) (kwargs : List String) : Bool :=
  let params := required ++ optional
  decide (npos ≤ params.length)
    && kwargs.all (fun k => params.contains k)
    && required.all (fun p => (params.take npos).contains p || kwargs.contains p)

/-- Binding outcome of a Python call, as an `Except`: an unbound required
parameter or an unexpected keyword raises `TypeError`. -/
def bindArgs (required optional : List String) (npos : Nat) (kwargs : List String) :
    Except PyError Unit :=
  if bindsOk required optional npos kwargs then .ok () else .error .typeError

/-! ## field.py: FieldCapacity and FieldHandler.get_field_capacity -/

/-- Embeds `FieldCapacity` dataclass (src/field.py lines 7-13); the misspelt
field name `root_dept` is kept from the source. -/
structure FieldCapacity where
  soil_type : String
  root_dept : ℚ
  humus_pct : ℚ
  nfk_mm_per_dm : ℚ
  nfk_total_mm : ℚ
deriving DecidableEq, Repr

/-- The default soil-type lookup table of `get_field_capacity`
(src/field.py lines 67-85): lower-cased soil name to the (min, max) usable
water-holding range in mm per 10 cm of soil. -/
def default_lookup : List (String × ℚ × ℚ) :=
  [("sand", (6, 12)),
   ("schwach lehmiger sand", (8, 14)),
   ("lehmiger sand", (12, 18)),
   ("schluffiger sand", (10, 16)),
   ("sandiger schluff", (20, 28)),
   ("schluff", (22, 30)),
   ("lehm", (18, 25)),
   ("sandiger lehm", (16, 22)),
   ("schluffiger lehm", (20, 28)),
   ("toniger lehm", (18, 26)),
   ("schluffiger ton", (18, 25)),
   ("ton", (15, 22)),
   ("humoser lehmiger sand", (14, 20))]

/-- Dictionary lookup by key. -/
def lookupSoil (key : String) (tbl : List (String × ℚ × ℚ)) : Option (ℚ × ℚ) :=
  (tbl.find? (fun e => e.1 = key)).map (fun e => e.2)

/-- Embeds `FieldHandler.get_field_capacity` (src/field.py lines 27-114).
`custom_lookup or default_lookup` uses Python truthiness: an empty custom
table also falls back to the default table. -/
def get_field_capacity (soil_type : String) (humus_pct root_depth_cm : ℚ)
    (custom_lookup : Option (List (String × ℚ × ℚ))) : Except PyError FieldCapacity :=
  if root_depth_cm ≤ 0 then .error .valueError
  else if humus_pct < 0 then .error .valueError
  else
    let lookup := match custom_lookup with
      | some tbl => if tbl = [] then default_lookup else tbl
      | none => default_lookup
    match lookupSoil (pyLower soil_type) lookup with
    | none => .error .keyError
    | some (nfk_min, nfk_max) =>
      let base_mm_per_dm := (nfk_min + nfk_max) / 2
      let humus_extra := min (max 0 (humus_pct - 3/2) * (3/2)) 6
      let nfk_mm_per_dm := base_mm_per_dm + humus_extra
      .ok { soil_type := soil_type
            root_dept := root_depth_cm
            humus_pct := humus_pct
            nfk_mm_per_dm := nfk_mm_per_dm
            nfk_total_mm := nfk_mm_per_dm * (root_depth_cm / 10) }

/-! ## field.py: FieldHandler.calculate_water_balance -/

/-- One row of the station-data table handed to `calculate_water_balance`
(src/field.py lines 116-205): the datetime-index value and the cells of the
columns the function reads.  A `none` cell is a NaN. -/
structure StationRow where
  date : Int
  precipitation : Option ℚ
  et0_corrected : Option ℚ
  et0 : Option ℚ
deriving DecidableEq, Repr

/-- The station-data table: its rows plus which of the columns read by
`calculate_water_balance` are actually present in the dataframe
(the cells of an absent column are never read). -/
structure StationTable where
  rows : List StationRow
  hasPrecipitationCol : Bool
  hasEt0CorrectedCol : Bool
  hasEt0Col : Bool
deriving DecidableEq, Repr

/-- Order on station rows by their datetime-index value. -/
def dateLe (a b : StationRow) : Prop := a.date ≤ b.date

instance : DecidableRel dateLe := fun a b => Int.decLe a.date b.date

instance : IsTotal StationRow dateLe := ⟨fun a b => Int.le_total a.date b.date⟩

instance : IsTrans StationRow dateLe := ⟨fun _ _ _ h1 h2 => le_trans h1 h2⟩

/-- Strict order on station rows by date (used to reason about sorting). -/
def dateLt (a b : StationRow) : Prop := a.date < b.date

/-- Embeds `station_data.sort_index()` (src/field.py line 131), modelled by the
stable insertion sort on the date key. -/
def sortRows (rows : List StationRow) : List StationRow :=
  List.insertionSort dateLe rows

/-- Daily irrigation amount for day `d`:
`irr_df[amount].fillna(0).groupby(normalize).sum()` reindexed onto the target
day with fill value 0 (src/field.py lines 166-169).  The events are
(date, amount-cell) pairs; dates are day-granular already. -/
def irrDailySum (irrigation_events : List (Int × Option ℚ)) (d : Int) : ℚ :=
  (((irrigation_events.filter (fun e => e.1 = d)).map (fun e => e.2.getD 0))).sum

/-- One row of the water-balance dataframe built by `calculate_water_balance`
(src/field.py lines 184-202). -/
structure BalanceRow where
  date : Int
  precipitation : ℚ
  irrigation : ℚ
  evapotranspiration : ℚ
  incoming : ℚ
  net : ℚ
  soil_storage : ℚ
  field_capacity : ℚ
  deficit : ℚ
  readily_available_water : Option ℚ
  below_raw : Option Bool
deriving DecidableEq, Repr

/-- The clamp of the bucket recurrence:
`max(0.0, min(capacity, current_storage + delta))` (src/field.py line 181). -/
def clampStorage (capacity x : ℚ) : ℚ := max 0 (min capacity x)

/-- The sequential bucket integration over the sorted rows, fused with the
columnar arithmetic of src/field.py lines 140-202 (all columns have equal
length, so the per-column operations are row-wise): carries the running
storage `current_storage`, which line 179 of the source initialises to the
full capacity — the function has no initial-storage input. -/
def wbRows (capacity p_allowable : ℚ) (irrigation_events : List (Int × Option ℚ))
    (useCorrected : Bool) (current_storage : ℚ) : List StationRow → List BalanceRow
  | [] => []
  | r :: rs =>
    let precip := r.precipitation.getD 0
    let evap := (if useCorrected then r.et0_corrected else r.et0).getD 0
    let irrAmt := irrDailySum irrigation_events r.date
    let incoming := precip + irrAmt
    let net := incoming - evap
    let storage := clampStorage capacity (current_storage + net)
    { date := r.date
      precipitation := precip
      irrigation := irrAmt
      evapotranspiration := evap
      incoming := incoming
      net := net
      soil_storage := storage
      field_capacity := capacity
      deficit := capacity - storage
      readily_available_water :=
        if p_allowable ≠ 0 then some (p_allowable * capacity) else none
      below_raw :=
        if p_allowable ≠ 0 then
          some (decide (storage < capacity - p_allowable * capacity))
        else none } :: wbRows capacity p_allowable irrigation_events useCorrected storage rs

/-- Embeds `FieldHandler.calculate_water_balance` (src/field.py lines 116-205).
`capacity` is `self.field_capacity.nfk_total_mm` and `p_allowable` is
`self.p_allowable` (`if self.p_allowable:` is Python truthiness, i.e. the
optional trigger columns appear iff `p_allowable ≠ 0`).  The signature is
exactly that of the source: station data and irrigation events — there is no
initial-storage parameter. -/
def calculate_water_balance (capacity p_allowable : ℚ) (station_data : StationTable)
    (irrigation_events : List (Int × Option ℚ)) : Except PyError (List BalanceRow) :=
  if station_data.rows = [] then .error .valueError
  else
    let data := sortRows station_data.rows
    if ¬ station_data.hasPrecipitationCol then .error .keyError
    else
      match (if station_data.hasEt0CorrectedCol then some true
             else if station_data.hasEt0Col then some false else none) with
      | none => .error .keyError
      | some useCorrected =>
        if capacity ≤ 0 then .error .valueError
        else .ok (wbRows capacity p_allowable irrigation_events useCorrected capacity data)

/-! ## et_correction.py: KcPeriod and ETCorrection -/

/-- Embeds `KcPeriod` dataclass (src/et_correction.py lines 8-24); dates are
2024 day ordinals.  The source field `end` is called `end_date` here because
`end` is reserved in Lean. -/
structure KcPeriod where
  name : String
  value : ℚ
  start : Int
  end_date : Option Int
deriving DecidableEq, Repr

/-- A resolved correction period, after `_attach_end_dates`. -/
structure RPeriod where
  name : String
  value : ℚ
  start : Int
  stop : Int
deriving DecidableEq, Repr

/-- Order on Kc periods by start date, used by the sort in `__init__`. -/
def kcLe (a b : KcPeriod) : Prop := a.start ≤ b.start

instance : DecidableRel kcLe := fun a b => Int.decLe a.start b.start

/-- Embeds `period.start.replace(day=31, month=12)` (src/et_correction.py line 123)
for the fixed calendar year 2024: December 31 is day 366. -/
def endOfYear2024 : Int := 366

/-- Embeds `ETCorrection._attach_end_dates` (src/et_correction.py lines 109-133):
each period's end is its explicit end, else the next period's start, else the
season end, else December 31 of its start year. -/
def attach_end_dates : List KcPeriod → Option Int → List RPeriod
  | [], _ => []
  | [p], season_end =>
    [{ name := p.name, value := p.value, start := p.start,
       stop := (p.end_date.or season_end).getD endOfYear2024 }]
  | p :: q :: rest, season_end =>
    { name := p.name, value := p.value, start := p.start,
      stop := (p.end_date.or (some q.start)).getD endOfYear2024 }
      :: attach_end_dates (q :: rest) season_end

/-- Embeds `ETCorrection.__init__` (src/et_correction.py lines 29-41): an empty
period list raises; otherwise the periods are sorted by start and their end
dates are resolved. -/
def ETCorrection.init (periods : List KcPeriod) (season_end : Option Int) :
    Except PyError (List RPeriod) :=
  if periods = [] then .error .valueError
  else .ok (attach_end_dates (List.insertionSort kcLe periods) season_end)

/-- Embeds `step_points.reindex(daily_index, method="pad")` at a single day
(src/et_correction.py lines 65-66): the value of the last period (in the
sorted table) whose start is at or before the day; NaN before the first
period start. -/
def stepValue (resolved : List RPeriod) (d : Int) : Option ℚ :=
  ((resolved.filter (fun p => p.start ≤ d)).getLast?).map (fun p => p.value)

/-- The inclusive integer range `[a, b]` modelling
`pd.date_range(a, b, freq="D")`. -/
def intRange (a b : Int) : List Int :=
  (List.range (b - a + 1).toNat).map (fun i => a + i)

/-- Embeds `ETCorrection.as_daily_series` (src/et_correction.py lines 48-68):
a daily series over `[start, end]` (the pandas `date_range` is inclusive of
both endpoints), forward-filled from the period-start step points; the bounds
default to the minimum period start and the maximum resolved end. -/
def as_daily_series (resolved : List RPeriod) (start stop : Option Int) :
    List (Int × Option ℚ) :=
  let start_ts := start.getD (((resolved.map (fun p => p.start)).min?).getD 0)
  let end_ts := stop.getD (((resolved.map (fun p => p.stop)).max?).getD 0)
  (intRange start_ts end_ts).map (fun d => (d, stepValue resolved d))

/-! ## resample.py: get_mode and MeteoResampler -/

/-- The value of a Python attribute access on a pandas Series: accessing a
data attribute yields the underlying values; accessing a *method name
without calling it* yields the bound-method object. -/
inductive PdAttr where
  | values (xs : List ℚ)
  | boundMethod (name : String)

/-- Embeds `column.mode` (src/resample.py line 9): `mode` is a method, so the bare
attribute access yields the bound method, not the mode values. -/
def seriesAttrMode (_column : List ℚ) : PdAttr := .boundMethod "mode"

/-- Embeds `.iloc` on a Python value: defined on a pandas Series, an
`AttributeError` on a bound-method object. -/
def PdAttr.attrIloc : PdAttr → Except PyError (List ℚ)
  | .values xs => .ok xs
  | .boundMethod _ => .error .attributeError

/-- Embeds `get_mode` (src/resample.py lines 8-9): `column.mode.iloc[0]`.  The
missing call parentheses after `mode` make `.iloc` an attribute access on the
bound-method object. -/
def get_mode (column : List ℚ) : Except PyError ℚ := do
  let iloc ← (seriesAttrMode column).attrIloc
  match iloc.head? with
  | some v => .ok v
  | none => .error .indexError

/-- An aggregation entry of the resampling config: a pandas-builtin
aggregation name or a Python callable. -/
inductive AggFunc where
  | mean
  | sum
  | max
  | pyFn (f : List ℚ → Except PyError ℚ)

/-- Embeds `DEFAULT_RESAMPLING_CONFIG` (src/resample.py lines 11-29). -/
def DEFAULT_RESAMPLING_CONFIG : List (String × AggFunc) :=
  [("tair_2m", .mean),
   ("tsoil_25cm", .mean),
   ("tdry_60cm", .mean),
   ("twet_60cm", .mean),
   ("relative_humidity", .mean),
   ("wind_speed", .mean),
   ("wind_gust", .max),
   ("wind_direction", .pyFn get_mode),
   ("precipitation", .sum),
   ("irrigation", .max),
   ("leaf_wetness", .mean),
   ("air_pressure", .mean),
   ("sun_duration", .mean),
   ("solar_radiation", .sum),
   ("snow_height", .mean),
   ("water_level", .mean),
   ("discharge", .mean)]

/-- Application of one aggregation to the values of one column in one
resample bin.  An empty bin yields NaN for mean and max and 0 for sum
(pandas behaviour); a raising callable propagates its error —
exactly what `.agg` does. -/
def applyAgg : AggFunc → List ℚ → Except PyError (Option ℚ)
  | .mean, xs => if xs = [] then .ok none else .ok (some (xs.sum / (xs.length : ℚ)))
  | .sum, xs => .ok (some xs.sum)
  | .max, xs => .ok xs.max?
  | .pyFn f, xs => (f xs).map some

/-- Embeds `MeteoResampler.resample` (src/resample.py lines 43-69).  The input table
is a list of (column name, cell values); the embedding aggregates each column
over a single resample bin — the grouping of timestamps into bins is
orthogonal to the aggregation-map logic under study.  Config entries whose
column is missing from the input are dropped; input columns without a config
entry are dropped unless `default_aggfunc` is supplied; the final `.agg`
applies the map in config order. -/
def MeteoResampler.resample (config : List (String × AggFunc))
    (meteo_data : List (String × List ℚ)) (default_aggfunc : Option AggFunc) :
    Except PyError (List (String × Option ℚ)) :=
  let colNames := meteo_data.map (fun c => c.1)
  let colmap1 := config.filter (fun e => colNames.contains e.1)
  let extra_columns := colNames.filter (fun c => ! (config.map (fun e => e.1)).contains c)
  let data_copy : List (String × List ℚ) := match default_aggfunc with
    | none => meteo_data.filter (fun c => ! extra_columns.contains c.1)
    | some _ => meteo_data
  let resample_colmap : List (String × AggFunc) := match default_aggfunc with
    | none => colmap1
    | some f => colmap1 ++ extra_columns.map (fun c => (c, f))
  (resample_colmap.filter (fun e => (data_copy.map (fun c => c.1)).contains e.1)).mapM
    (fun e =>
      (applyAgg e.2 (((data_copy.find? (fun c => c.1 = e.1)).map (fun c => c.2)).getD [])).map
        (fun v => (e.1, v)))

/-! ## database/models.py and irrigation.py -/

/-- Embeds `models.Irrigation` (src/database/models.py lines 29-43). -/
structure Irrigation where
  id : Nat
  field_id : Nat
  date : Int
  method : String
  amount : ℚ
deriving DecidableEq, Repr

/-- Embeds `models.Field` (src/database/models.py lines 7-26). -/
structure FieldRec where
  id : Nat
  name : String
  reference_station : String
  soil_type : String
  humus_pct : ℚ
  area_ha : Option ℚ
  root_depth_cm : ℚ
  p_allowable : ℚ
deriving DecidableEq, Repr

/-- The attribute dictionary of `self` while `FieldIrrigation.__init__` runs
(src/irrigation.py lines 10-27): the attributes the method assigns, each
absent until its assignment executes. -/
structure FieldIrrigationAttrs where
  dates : Option (List Int)
  amounts : Option (List ℚ)

/-- Reading `self.dates`: an `AttributeError` when not yet assigned. -/
def getattrDates (s : FieldIrrigationAttrs) : Except PyError (List Int) :=
  match s.dates with
  | some v => .ok v
  | none => .error .attributeError

/-- Reading `self.amounts`: an `AttributeError` when not yet assigned. -/
def getattrAmounts (s : FieldIrrigationAttrs) : Except PyError (List ℚ) :=
  match s.amounts with
  | some v => .ok v
  | none => .error .attributeError

/-- A constructed `FieldIrrigation` object (src/irrigation.py lines 25-27). -/
structure FieldIrrigation where
  field_id : Nat
  dates : List Int
  amounts : List ℚ
deriving DecidableEq, Repr

/-- Embeds `FieldIrrigation.__init__` (src/irrigation.py lines 10-27), traced
statement by statement.  Lines 13-20 convert the input dates (already
datetimes in this embedding, so the conversion succeeds); line 22 then reads
`self.dates` and `self.amounts` for the length check, but the assignments to
those attributes only happen at lines 26-27. -/
def FieldIrrigation.init (field_id : Nat) (dates : List Int) (amounts : List ℚ) :
    Except PyError FieldIrrigation := do
  let self : FieldIrrigationAttrs := { dates := none, amounts := none }
  let dates_re := dates
  let selfDates ← getattrDates self
  let selfAmounts ← getattrAmounts self
  if selfDates.length ≠ selfAmounts.length then .error .valueError
  else .ok { field_id := field_id, dates := dates_re, amounts := amounts }

/-- Embeds `FieldIrrigation.from_list` (src/irrigation.py lines 29-41):
`set(i.field_id for i in irrigation_events)` is the deduplicated list of
field ids. -/
def FieldIrrigation.from_list (irrigation_events : List Irrigation) :
    Except PyError FieldIrrigation :=
  let field_ids := (irrigation_events.map (fun i => i.field_id)).dedup
  if 1 < field_ids.length then .error .valueError
  else if field_ids.length = 0 then .error .valueError
  else
    FieldIrrigation.init (field_ids.getD 0 0)
      (irrigation_events.map (fun i => i.date))
      (irrigation_events.map (fun i => i.amount))

/-! ## database/db.py: IrrigDB -/

/-- One persisted water-balance row (`models.WaterBalance`), restricted to
the columns the claims under study read; the remaining numeric columns are
carried by the same upsert/delete operations and are irrelevant to the
clearing and emission behaviour studied here. -/
structure WaterBalanceRec where
  field_id : Nat
  date : Int
  soil_storage : ℚ
  irrigation : ℚ
  precipitation : ℚ
deriving DecidableEq, Repr

/-- The relational state of `IrrigDB`. -/
structure DBState where
  fields : List FieldRec
  events : List Irrigation
  balances : List WaterBalanceRec
deriving DecidableEq, Repr

/-- Embeds `IrrigDB._query_field(session, name=...)` (src/database/db.py
lines 46-58). -/
def query_field_by_name (db : DBState) (name : String) : Option FieldRec :=
  db.fields.find? (fun f => f.name = name)

/-- Embeds `IrrigDB._get_irrigation_events` (src/database/db.py lines 96-114)
restricted to the field/date filters the claims exercise. -/
def get_irrigation_events (db : DBState) (field_id : Option Nat) (date : Option Int) :
    List Irrigation :=
  (db.events.filter (fun e => field_id.all (fun f => e.field_id == f))).filter
    (fun e => date.all (fun d => e.date == d))

/-- Order on irrigation events by date, for `order_by(date.asc())`. -/
def eventDateLe (a b : Irrigation) : Prop := a.date ≤ b.date

instance : DecidableRel eventDateLe := fun a b => Int.decLe a.date b.date

/-- Embeds `IrrigDB.first_irrigation_event` / `_get_first_irrigation_event`
(src/database/db.py lines 84-94 and 335-337): the earliest event of the
field with `year_start ≤ date < year_stop` (the two bounds are the day
ordinals of January 1 of the year and of the next year). -/
def first_irrigation_event (db : DBState) (field_id : Nat)
    (year_start year_stop : Int) : Option Irrigation :=
  (List.insertionSort eventDateLe
    (db.events.filter
      (fun e => e.field_id == field_id
        && decide (year_start ≤ e.date) && decide (e.date < year_stop)))).head?

/-- Embeds `IrrigDB._clear_water_balance` (src/database/db.py lines 427-431):
delete every water-balance row of the field. -/
def clear_water_balance_for (balances : List WaterBalanceRec) (field_id : Nat) :
    List WaterBalanceRec :=
  balances.filter (fun r => ! r.field_id == field_id)

/-- Fresh primary key for a new irrigation event (SQLite autoincrement:
one more than the largest existing id). -/
def nextEventId (events : List Irrigation) : Nat :=
  (events.map (fun e => e.id)).foldr Nat.max 0 + 1

/-- Embeds `IrrigDB.add_irrigation_event` (src/database/db.py lines 238-294),
as one atomic state transition (the source wraps the whole body in a single
`session_scope` transaction that commits on success and rolls back on
error).  When `id` is given the event with that id is updated (possibly
moving it to another field); otherwise an existing event of the same field
and date is updated, or a new event is created.  The water-balance cache of
the target field is cleared, and — when the event moved — that of the old
field too (`if old_field_id and old_field_id != field.id`, Python
truthiness on the id). -/
def add_irrigation_event (db : DBState) (field_name : String) (date : Int)
    (method : String) (amount : ℚ) (id : Option Nat) :
    Except PyError (DBState × Irrigation) :=
  match query_field_by_name db field_name with
  | none => .error .valueError
  | some fld =>
    let eventById : Except PyError (Option Irrigation) :=
      match id with
      | some i =>
        match db.events.find? (fun e => e.id == i) with
        | none => .error .valueError
        | some e => .ok (some e)
      | none => .ok none
    match eventById with
    | .error e => .error e
    | .ok ev0 =>
      let event0 : Option Irrigation :=
        match ev0 with
        | some e => some e
        | none => (get_irrigation_events db (some fld.id) (some date)).head?
      let old_field_id : Option Nat := event0.map (fun e => e.field_id)
      let step : List Irrigation × Irrigation :=
        match event0 with
        | some e =>
          let e1 : Irrigation :=
            { e with field_id := fld.id, date := date, method := method, amount := amount }
          (db.events.map (fun x => if x.id = e.id then e1 else x), e1)
        | none =>
          let e1 : Irrigation :=
            { id := nextEventId db.events, field_id := fld.id,
              date := date, method := method, amount := amount }
          (db.events ++ [e1], e1)
      let bal1 := clear_water_balance_for db.balances fld.id
      let bal2 :=
        match old_field_id with
        | some o => if o ≠ 0 ∧ o ≠ fld.id then clear_water_balance_for bal1 o else bal1
        | none => bal1
      .ok ({ db with events := step.1, balances := bal2 }, step.2)

/-- Embeds `IrrigDB.delete_irrigation_event` (src/database/db.py lines 464-471):
delete the event and clear the water-balance cache of its field, in one
transaction; returns `false` when no event has the id. -/
def delete_irrigation_event (db : DBState) (event_id : Nat) : DBState × Bool :=
  match db.events.find? (fun e => e.id == event_id) with
  | none => (db, false)
  | some e =>
    ({ db with
        events := db.events.filter (fun x => ! x.id == event_id),
        balances := clear_water_balance_for db.balances e.field_id }, true)

/-! ## workflow.py: WaterBalanceWorkflow -/

/-- The configuration the run loop reads: `season_start` and `season_end`
from `config['general']` (src/workflow.py lines 28-29) and
`pd.Timestamp.today()` (line 69). -/
structure WorkflowConfig where
  season_start : Int
  season_end : Int
  today : Int
deriving DecidableEq, Repr

/-- Outcome of `meteo_handler.query` for a field's reference station
(src/workflow.py lines 119-125): the network fetch raises, returns no data
(`None`), or returns a station table. -/
inductive FetchOutcome where
  | raise
  | noData
  | ok (table : StationTable)
deriving DecidableEq, Repr

/-- Level of a log record emitted by the run loop. -/
inductive LogLevel where
  | info
  | error
deriving DecidableEq, Repr

/-- One `plot_line` call: the series emitted for a field (the event-marker
traces are drawn from the same dataframe and carry no additional data). -/
structure Emission where
  fieldName : String
  points : List (Int × ℚ)
deriving DecidableEq, Repr

/-- Descending date order on water-balance rows
(`order_by(WaterBalance.date.desc())`). -/
def wbDateGe (a b : WaterBalanceRec) : Prop := b.date ≤ a.date

instance : DecidableRel wbDateGe := fun a b => Int.decLe b.date a.date

/-- Ascending date order on water-balance rows (`sort_index()`). -/
def wbDateLe (a b : WaterBalanceRec) : Prop := a.date ≤ b.date

instance : DecidableRel wbDateLe := fun a b => Int.decLe a.date b.date

/-- Embeds `IrrigDB.latest_water_balance` (src/database/db.py lines 73-82 and
328-333): the row of the field with the greatest date. -/
def latest_water_balance (balances : List WaterBalanceRec) (field_id : Nat) :
    Option WaterBalanceRec :=
  (List.insertionSort wbDateGe
    (balances.filter (fun r => r.field_id == field_id))).head?

/-- The required and optional parameters of
`FieldHandler.get_field_capacity` (src/field.py lines 27-32):
`humus_pct` has no default. -/
def get_field_capacity_required : List String := ["humus_pct"]

/-- The defaulted parameters of `get_field_capacity`. -/
def get_field_capacity_optional : List String := ["root_depth_cm", "custom_lookup"]

/-- The parameters of `FieldHandler.calculate_water_balance`
(src/field.py line 116): exactly two, no `initial_storage`. -/
def calculate_water_balance_params : List String := ["station_data", "irrigation_events"]

/-- The body of the `Computing` branch after a successful station fetch
(src/workflow.py lines 132-171), traced statement by statement:
line 132 joins the ET series (modelled as succeeding); line 135 calls
`field.get_field_capacity()` with no arguments although `humus_pct` has no
default, so argument binding raises `TypeError`; line 136 (unreachable)
builds the `FieldIrrigation`, whose constructor always raises; line 138
(unreachable) calls `calculate_water_balance` with the keyword
`initial_storage`, which is not a parameter of that method.  The persist and
plot steps of lines 142-171 are unreachable: no flow reaches them, as every
earlier step raises (`computingBody_always_fails` below). -/
def computingBody (db : DBState) (fld : FieldRec) (_table : StationTable) :
    Except PyError (List WaterBalanceRec × List Emission) := do
  let _ ← bindArgs get_field_capacity_required get_field_capacity_optional 0 []
  let _ ← FieldIrrigation.from_list (get_irrigation_events db (some fld.id) none)
  let _ ← bindArgs calculate_water_balance_params [] 2 ["initial_storage"]
  pure (db.balances, [])

/-- The per-field result of one iteration of the run loop:
the water-balance rows after the iteration, the emitted plot series, the log
records, and the value of the local variable `start_date`
(src/workflow.py line 67). -/
structure FieldRunResult where
  balances : List WaterBalanceRec
  emissions : List Emission
  logs : List LogLevel
  start_date : Int
deriving DecidableEq, Repr

/-- One iteration of `WaterBalanceWorkflow.run`'s per-field loop
(src/workflow.py lines 62-174).  Lines 65-69 compute the resume point and
window; when `start_date >= period_end` the previously persisted series is
re-emitted (lines 71-112); otherwise the `Computing` branch runs under a
`try` whose handler logs the error and moves on (lines 113-174). -/
def processField (cfg : WorkflowConfig) (db : DBState) (fld : FieldRec)
    (fetch : FetchOutcome) : FieldRunResult :=
  let latest := latest_water_balance db.balances fld.id
  let next_date : Int :=
    match latest with
    | some lb => lb.date + 1
    | none => cfg.season_start
  let start_date := max cfg.season_start next_date
  let period_end := min cfg.today cfg.season_end
  let step : List WaterBalanceRec × List Emission × List LogLevel :=
    if period_end ≤ start_date then
      let wb_persisted := db.balances.filter
        (fun r => decide (r.field_id = fld.id
          ∧ cfg.season_start ≤ r.date ∧ r.date ≤ cfg.season_end))
      if wb_persisted.isEmpty then
        (db.balances, [], [.info, .info])
      else
        let wb_sorted := List.insertionSort wbDateLe wb_persisted
        (db.balances,
         [{ fieldName := fld.name,
            points := wb_sorted.map (fun r => (r.date, r.soil_storage)) }],
         [.info])
    else
      match fetch with
      | .raise => (db.balances, [], [.info, .error])
      | .noData => (db.balances, [], [.info, .info])
      | .ok table =>
        match computingBody db fld table with
        | .error _ => (db.balances, [], [.info, .error])
        | .ok (bal2, ems) => (bal2, ems, [.info, .info])
  { balances := step.1
    emissions := step.2.1
    logs := step.2.2
    start_date := start_date }

/-- Embeds `WaterBalanceWorkflow.run` without `force_fields`
(src/workflow.py lines 56-174): the per-field loop, folded over the
configured fields; `fetch` gives the station-fetch outcome per field. -/
def WaterBalanceWorkflow.run (cfg : WorkflowConfig) (db : DBState)
    (fetch : Nat → FetchOutcome) :
    List WaterBalanceRec × List Emission × List LogLevel :=
  db.fields.foldl
    (fun acc fld =>
      let r := processField cfg { db with balances := acc.1 } fld (fetch fld.id)
      (r.balances, acc.2.1 ++ r.emissions, acc.2.2 ++ r.logs))
    (db.balances, [], [])

/-! ## Concrete scenarios used by the theorems below -/

/-- The correction periods of the documented coverage example:
Kc 0.30 from April 1 (day 92), 1.10 from June 1 (day 153), 0.65 from
July 1 (day 183); season end October 1 (day 275). -/
def periodsC7 : List KcPeriod :=
  [{ name := "Kc_ini", value := 3/10, start := 92, end_date := none },
   { name := "Kc_mid", value := 11/10, start := 153, end_date := none },
   { name := "Kc_end", value := 13/20, start := 183, end_date := none }]

/-- The daily Kc series built from `periodsC7` with season end day 275. -/
def kcSeriesC7 : List (Int × Option ℚ) :=
  match ETCorrection.init periodsC7 (some 275) with
  | .ok resolved => as_daily_series resolved none none
  | .error _ => []

/-- A one-row station table with an `et0` column, used to witness the
storage-bounds theorem. -/
def stationC2 : StationTable :=
  { rows := [{ date := 1, precipitation := some 2, et0_corrected := none, et0 := some 1 }],
    hasPrecipitationCol := true, hasEt0CorrectedCol := false, hasEt0Col := true }

/-- Two station rows sharing one timestamp: +50 mm net on one row,
−200 mm net on the other. -/
def rowsC10A : List StationRow :=
  [{ date := 5, precipitation := some 50, et0_corrected := none, et0 := some 0 },
   { date := 5, precipitation := some 0, et0_corrected := none, et0 := some 200 }]

/-- The same two rows in the opposite order. -/
def rowsC10B : List StationRow :=
  [{ date := 5, precipitation := some 0, et0_corrected := none, et0 := some 200 },
   { date := 5, precipitation := some 50, et0_corrected := none, et0 := some 0 }]

/-- Two station rows with distinct timestamps. -/
def rowsC10W1 : List StationRow :=
  [{ date := 2, precipitation := some 1, et0_corrected := none, et0 := some 3 },
   { date := 1, precipitation := some 4, et0_corrected := none, et0 := some 0 }]

/-- The same two rows in the opposite order. -/
def rowsC10W2 : List StationRow :=
  [{ date := 1, precipitation := some 4, et0_corrected := none, et0 := some 0 },
   { date := 2, precipitation := some 1, et0_corrected := none, et0 := some 3 }]

/-- Field 1 of the season-start scenario: one irrigation event on May 1
(day 121), no persisted balance. -/
def fieldC3A : FieldRec :=
  { id := 1, name := "C3A", reference_station := "st1", soil_type := "sand",
    humus_pct := 2, area_ha := none, root_depth_cm := 30, p_allowable := 0 }

/-- Field 2 of the season-start scenario: no irrigation events, one
persisted balance row. -/
def fieldC3B : FieldRec :=
  { id := 2, name := "C3B", reference_station := "st1", soil_type := "sand",
    humus_pct := 2, area_ha := none, root_depth_cm := 30, p_allowable := 0 }

/-- Database of the season-start scenario. -/
def dbC3 : DBState :=
  { fields := [fieldC3A, fieldC3B],
    events := [{ id := 1, field_id := 1, date := 121, method := "drip", amount := 10 }],
    balances := [{ field_id := 2, date := 199, soil_storage := 50,
                   irrigation := 0, precipitation := 0 }] }

/-- Season April 1 (day 92) to October 1 (day 275), today = day 200. -/
def cfgC3 : WorkflowConfig := { season_start := 92, season_end := 275, today := 200 }

/-- A nonempty station table for the season-start scenario's fetch. -/
def stationC3 : StationTable :=
  { rows := [{ date := 93, precipitation := some 1, et0_corrected := none, et0 := some 2 }],
    hasPrecipitationCol := true, hasEt0CorrectedCol := false, hasEt0Col := true }

/-- The field of the fallback scenario. -/
def fieldC4 : FieldRec :=
  { id := 1, name := "C4", reference_station := "st1", soil_type := "sand",
    humus_pct := 2, area_ha := none, root_depth_cm := 30, p_allowable := 0 }

/-- Database of the fallback scenario: the field has a persisted balance up
to day 150, well before the window end (day 200). -/
def dbC4 : DBState :=
  { fields := [fieldC4],
    events := [{ id := 1, field_id := 1, date := 121, method := "drip", amount := 10 }],
    balances := [{ field_id := 1, date := 150, soil_storage := 80,
                   irrigation := 0, precipitation := 3 }] }

/-- Season window of the fallback scenario. -/
def cfgC4 : WorkflowConfig := { season_start := 92, season_end := 275, today := 200 }

/-- First field of the irrigation-clearing scenario. -/
def fieldC9A : FieldRec :=
  { id := 1, name := "C9A", reference_station := "st1", soil_type := "sand",
    humus_pct := 2, area_ha := none, root_depth_cm := 30, p_allowable := 0 }

/-- Second field of the irrigation-clearing scenario. -/
def fieldC9B : FieldRec :=
  { id := 2, name := "C9B", reference_station := "st1", soil_type := "sand",
    humus_pct := 2, area_ha := none, root_depth_cm := 30, p_allowable := 0 }

/-- The pre-existing irrigation event (field 1) that the scenario moves to
field 2. -/
def oldEvC9 : Irrigation := { id := 7, field_id := 1, date := 121, method := "drip", amount := 10 }

/-- Database of the irrigation-clearing scenario: persisted balance rows for
fields 1, 2 and 3. -/
def dbC9 : DBState :=
  { fields := [fieldC9A, fieldC9B],
    events := [oldEvC9],
    balances := [{ field_id := 1, date := 150, soil_storage := 80, irrigation := 0, precipitation := 3 },
                 { field_id := 2, date := 151, soil_storage := 70, irrigation := 0, precipitation := 0 },
                 { field_id := 3, date := 155, soil_storage := 60, irrigation := 0, precipitation := 0 }] }

/-- The event after the move: same id, now on field 2. -/
def evC9r : Irrigation := { id := 7, field_id := 2, date := 130, method := "drip", amount := 25 }

/-- The database after the move: the balances of field 1 (old) and field 2
(new) are cleared, field 3's row survives. -/
def dbC9r : DBState :=
  { fields := [fieldC9A, fieldC9B],
    events := [evC9r],
    balances := [{ field_id := 3, date := 155, soil_storage := 60, irrigation := 0, precipitation := 0 }] }

/-- The field-3 balance row surviving the move. -/
def wbRecC9 : WaterBalanceRec :=
  { field_id := 3, date := 155, soil_storage := 60, irrigation := 0, precipitation := 0 }

/-- The field-2 balance row surviving the deletion of `oldEvC9`. -/
def wbRecC9d : WaterBalanceRec :=
  { field_id := 2, date := 151, soil_storage := 70, irrigation := 0, precipitation := 0 }

/-- The database after deleting `oldEvC9` from `dbC9`: field 1's balance is
cleared. -/
def dbC9d : DBState :=
  { fields := [fieldC9A, fieldC9B],
    events := [],
    balances := [{ field_id := 2, date := 151, soil_storage := 70, irrigation := 0, precipitation := 0 },
                 { field_id := 3, date := 155, soil_storage := 60, irrigation := 0, precipitation := 0 }] }

/-! ## Theorems -/

/-- Every row produced by the bucket integration has its storage clamped
into `[0, field_capacity]`. -/
theorem wbRows_storage_bounds (capacity p_allowable : ℚ)
    (irr : List (Int × Option ℚ)) (useC : Bool) (hcap : 0 ≤ capacity) :
    ∀ (rows : List StationRow) (cur : ℚ),
      ∀ row ∈ wbRows capacity p_allowable irr useC cur rows,
        0 ≤ row.soil_storage ∧ row.soil_storage ≤ row.field_capacity := by
  intro rows
  induction rows with
  | nil => intro cur row h; simp [wbRows] at h
  | cons r rs ih =>
    intro cur row h
    rw [wbRows, List.mem_cons] at h
    rcases h with h | h
    · subst h
      exact ⟨le_max_left _ _, max_le hcap (min_le_left _ _)⟩
    · exact ih _ row h

/-- C1.  The claim is a code bug, witnessed in two parts.  First, the
orchestrator's call `field.calculate_water_balance(station.data,
field_irrigation, initial_storage=initial_storage)` (src/workflow.py
lines 138-140) does not bind: `initial_storage` is not a parameter of
`calculate_water_balance` (src/field.py line 116), so the call raises
`TypeError`.  Second, the simulation itself starts the bucket from full
capacity: on a one-day table with zero rain and 5 mm ET against capacity
100, the first storage value is 95 = clamp(100 − 5), which is only possible
when the integration was seeded with the full capacity — no supplied
initial-storage value enters the computation. -/
theorem initial_storage_code_bug :
    bindArgs calculate_water_balance_params [] 2 ["initial_storage"] = .error .typeError
  ∧ calculate_water_balance 100 0
      { rows := [{ date := 0, precipitation := some 0, et0_corrected := none, et0 := some 5 }],
        hasPrecipitationCol := true, hasEt0CorrectedCol := false, hasEt0Col := true } []
      = .ok [{ date := 0, precipitation := 0, irrigation := 0, evapotranspiration := 5,
               incoming := 0, net := -5, soil_storage := 95, field_capacity := 100,
               deficit := 5, readily_available_water := none, below_raw := none }] := by
  refine ⟨rfl, ?_⟩
  norm_num [calculate_water_balance, sortRows, List.insertionSort, List.orderedInsert,
    wbRows, irrDailySum, clampStorage, min_def, max_def]

/-- C5.  The claim is a code bug: no `FieldIrrigation` can ever be built,
because `__init__` (src/irrigation.py line 22) reads `self.dates` and
`self.amounts` for its length check before lines 26-27 assign them, so the
constructor always raises `AttributeError`.  In particular, building one
from two events of 10 mm and 15 mm on the same calendar day of one field
fails instead of producing an aligned value of 25 mm. -/
theorem field_irrigation_init_attribute_error :
    FieldIrrigation.from_list
      [{ id := 1, field_id := 1, date := 150, method := "drip", amount := 10 },
       { id := 2, field_id := 1, date := 150, method := "drip", amount := 15 }]
      = .error .attributeError
  ∧ ∀ (field_id : Nat) (dates : List Int) (amounts : List ℚ),
      FieldIrrigation.init field_id dates amounts = .error .attributeError :=
  ⟨rfl, fun _ _ _ => rfl⟩

/-- C6.  The field-capacity estimate follows the documented formula: the
mean of the soil type's (min, max) range, plus a humus bonus of
`max(0, humus_pct − 1.5) × 1.5` capped at 6.0, times `root_depth_cm / 10`;
for soil type "sand" (range 6-12) with humus 1.5 % and root depth 30 cm it
returns 9.0 mm/dm and 27.0 mm in total, and with humus 5.0 % it returns
14.25 mm/dm. -/
theorem field_capacity_formula :
    (∀ (soil : String) (humus_pct root_depth_cm nfk_min nfk_max : ℚ),
      0 < root_depth_cm → 0 ≤ humus_pct →
      lookupSoil (pyLower soil) default_lookup = some (nfk_min, nfk_max) →
      get_field_capacity soil humus_pct root_depth_cm none
        = .ok { soil_type := soil, root_dept := root_depth_cm, humus_pct := humus_pct,
                nfk_mm_per_dm :=
                  (nfk_min + nfk_max) / 2 + min (max 0 (humus_pct - 3/2) * (3/2)) 6,
                nfk_total_mm :=
                  ((nfk_min + nfk_max) / 2 + min (max 0 (humus_pct - 3/2) * (3/2)) 6)
                    * (root_depth_cm / 10) })
  ∧ get_field_capacity "sand" (3/2) 30 none
      = .ok { soil_type := "sand", root_dept := 30, humus_pct := 3/2,
              nfk_mm_per_dm := 9, nfk_total_mm := 27 }
  ∧ (get_field_capacity "sand" 5 30 none).map (fun c => c.nfk_mm_per_dm) = .ok (57/4) := by
  have hgen : ∀ (soil : String) (humus_pct root_depth_cm nfk_min nfk_max : ℚ),
      0 < root_depth_cm → 0 ≤ humus_pct →
      lookupSoil (pyLower soil) default_lookup = some (nfk_min, nfk_max) →
      get_field_capacity soil humus_pct root_depth_cm none
        = .ok { soil_type := soil, root_dept := root_depth_cm, humus_pct := humus_pct,
                nfk_mm_per_dm :=
                  (nfk_min + nfk_max) / 2 + min (max 0 (humus_pct - 3/2) * (3/2)) 6,
                nfk_total_mm :=
                  ((nfk_min + nfk_max) / 2 + min (max 0 (humus_pct - 3/2) * (3/2)) 6)
                    * (root_depth_cm / 10) } := by
    intro soil humus_pct root_depth_cm nfk_min nfk_max hroot hhum hlook
    unfold get_field_capacity
    rw [if_neg (not_le.mpr hroot), if_neg (not_lt.mpr hhum)]
    simp only [hlook]
  refine ⟨hgen, ?_, ?_⟩
  · rw [hgen "sand" (3/2) 30 6 12 (by norm_num) (by norm_num) (by rfl)]
    norm_num [min_def, max_def]
  · rw [hgen "sand" 5 30 6 12 (by norm_num) (by norm_num) (by rfl)]
    norm_num [Except.map, min_def, max_def]

/-- Witness for `field_capacity_formula`: the general formula evaluated at
soil "sand", humus 2 %, root depth 10 cm gives 9.75 mm/dm. -/
theorem field_capacity_formula_witness :
    get_field_capacity "sand" 2 10 none
      = .ok { soil_type := "sand", root_dept := 10, humus_pct := 2,
              nfk_mm_per_dm := 39/4, nfk_total_mm := 39/4 } := by
  rw [field_capacity_formula.1 "sand" 2 10 6 12 (by norm_num) (by norm_num) (by rfl)]
  norm_num [min_def, max_def]

/-- C8.  The claim is a code bug: `get_mode` (src/resample.py line 9) is
written `column.mode.iloc[0]` — without call parentheses, `column.mode` is
the bound-method object and `.iloc` on it raises `AttributeError` — so
resampling a table that contains a `wind_direction` column raises instead of
succeeding.  The mapped aggregations and the dropping of unmapped columns do
work: a table with `wind_gust` and an unmapped `foo` column resamples to the
maximum of `wind_gust` alone. -/
theorem resample_wind_direction_error :
    MeteoResampler.resample DEFAULT_RESAMPLING_CONFIG [("wind_direction", [90])] none
      = .error .attributeError
  ∧ MeteoResampler.resample DEFAULT_RESAMPLING_CONFIG
      [("wind_gust", [1, 3]), ("foo", [7])] none
      = .ok [("wind_gust", some 3)]
  ∧ get_mode [90] = .error .attributeError := by
  exact ⟨rfl, rfl, rfl⟩

/-- C2.  On every station table satisfying the preconditions of
`calculate_water_balance` (non-empty rows, a precipitation column, an ET
column, positive capacity) the function succeeds and every returned day has
`0 ≤ soil_storage ≤ field_capacity`. -/
theorem soil_storage_within_bounds (capacity p : ℚ) (t : StationTable)
    (irr : List (Int × Option ℚ)) (hrows : t.rows ≠ [])
    (hprecip : t.hasPrecipitationCol = true)
    (het : t.hasEt0CorrectedCol = true ∨ t.hasEt0Col = true)
    (hcap : 0 < capacity) :
    ∃ b, calculate_water_balance capacity p t irr = .ok b ∧
      ∀ row ∈ b, 0 ≤ row.soil_storage ∧ row.soil_storage ≤ row.field_capacity := by
  obtain ⟨rows, hp, hc, h0⟩ := t
  subst hprecip
  cases hc with
  | true =>
    refine ⟨wbRows capacity p irr true capacity (sortRows rows), ?_,
      fun row hrow =>
        wbRows_storage_bounds capacity p irr true (le_of_lt hcap) (sortRows rows)
          capacity row hrow⟩
    simp only [calculate_water_balance, if_neg hrows, if_neg (not_le.mpr hcap), reduceIte]
    simp
  | false =>
    have h : h0 = true := by
      rcases het with h | h
      · exact absurd h (by simp)
      · exact h
    subst h
    refine ⟨wbRows capacity p irr false capacity (sortRows rows), ?_,
      fun row hrow =>
        wbRows_storage_bounds capacity p irr false (le_of_lt hcap) (sortRows rows)
          capacity row hrow⟩
    simp only [calculate_water_balance, if_neg hrows, if_neg (not_le.mpr hcap), reduceIte]
    simp

/-- Witness for `soil_storage_within_bounds` at a one-day table with 2 mm of
rain and 1 mm of ET against capacity 50. -/
theorem soil_storage_within_bounds_witness :
    ∃ b, calculate_water_balance 50 0 stationC2 [] = .ok b ∧
      ∀ row ∈ b, 0 ≤ row.soil_storage ∧ row.soil_storage ≤ row.field_capacity :=
  soil_storage_within_bounds 50 0 stationC2 [] (by decide) rfl (Or.inr rfl) (by decide)

set_option maxRecDepth 262144 in
/-- C7.  The correction curve of the documented example is a step function
taking the new period's value from its start day forward: on day 92
(April 1) it is 0.30, on day 153 (June 1) it is 1.10, and on every day from
183 (July 1) through 274 (September 30) it is 0.65. -/
theorem correction_curve_step :
    kcSeriesC7.lookup 92 = some (some (3/10))
  ∧ kcSeriesC7.lookup 153 = some (some (11/10))
  ∧ ∀ d ∈ intRange 183 274, kcSeriesC7.lookup d = some (some (13/20)) := by
  refine ⟨rfl, rfl, ?_⟩
  have h : (intRange 183 274).map (fun d => kcSeriesC7.lookup d)
      = (intRange 183 274).map (fun _ => some (some (13/20))) := rfl
  exact List.map_eq_map_iff.mp h

set_option maxRecDepth 8192 in
/-- Witness for `correction_curve_step` at day 200 (July 18). -/
theorem correction_curve_step_witness :
    kcSeriesC7.lookup 200 = some (some (13/20)) :=
  correction_curve_step.2.2 200 (by decide)

/-- Sorting by date gives the same result for any two permutations of the
rows, provided the dates are pairwise distinct. -/
theorem sortRows_congr_of_perm (rows1 rows2 : List StationRow)
    (hperm : rows1.Perm rows2) (hnd : (rows1.map StationRow.date).Nodup) :
    sortRows rows1 = sortRows rows2 := by
  have hp1 : List.Pairwise dateLe (sortRows rows1) :=
    List.sorted_insertionSort dateLe rows1
  have hp2 : List.Pairwise dateLe (sortRows rows2) :=
    List.sorted_insertionSort dateLe rows2
  have hnd2 : (rows2.map StationRow.date).Nodup :=
    ((hperm.map StationRow.date).nodup_iff).mp hnd
  have hndA : ((sortRows rows1).map StationRow.date).Nodup :=
    (((List.perm_insertionSort dateLe rows1).map StationRow.date).nodup_iff).mpr hnd
  have hndB : ((sortRows rows2).map StationRow.date).Nodup :=
    (((List.perm_insertionSort dateLe rows2).map StationRow.date).nodup_iff).mpr hnd2
  have hneA : List.Pairwise (fun a b => a.date ≠ b.date) (sortRows rows1) :=
    List.pairwise_map.mp hndA
  have hneB : List.Pairwise (fun a b => a.date ≠ b.date) (sortRows rows2) :=
    List.pairwise_map.mp hndB
  have hltA : List.Pairwise dateLt (sortRows rows1) :=
    List.Pairwise.imp (fun h => lt_of_le_of_ne h.1 h.2) (List.Pairwise.and hp1 hneA)
  have hltB : List.Pairwise dateLt (sortRows rows2) :=
    List.Pairwise.imp (fun h => lt_of_le_of_ne h.1 h.2) (List.Pairwise.and hp2 hneB)
  haveI : IsAntisymm StationRow dateLt :=
    ⟨fun _ _ h1 h2 => absurd (lt_trans h1 h2) (lt_irrefl _)⟩
  exact List.eq_of_perm_of_sorted
    ((List.perm_insertionSort dateLe rows1).trans
      (hperm.trans (List.perm_insertionSort dateLe rows2).symm)) hltA hltB

/-- C10 counterexample.  Two rows sharing one timestamp (net +50 mm and
−200 mm against capacity 100): swapping them changes the returned balance —
the stable sort preserves the input order of equal timestamps, so the bucket
integrates the two days in a different order (storages [100, 0] versus
[0, 50]).  The claim's universal row-order invariance is false. -/
theorem row_order_counterexample :
    rowsC10B.Perm rowsC10A
  ∧ calculate_water_balance 100 0
      { rows := rowsC10A, hasPrecipitationCol := true,
        hasEt0CorrectedCol := false, hasEt0Col := true } []
      ≠ calculate_water_balance 100 0
      { rows := rowsC10B, hasPrecipitationCol := true,
        hasEt0CorrectedCol := false, hasEt0Col := true } [] := by
  constructor
  · decide
  · have hA : calculate_water_balance 100 0
        { rows := rowsC10A, hasPrecipitationCol := true,
          hasEt0CorrectedCol := false, hasEt0Col := true } []
        = .ok [{ date := 5, precipitation := 50, irrigation := 0, evapotranspiration := 0,
                 incoming := 50, net := 50, soil_storage := 100, field_capacity := 100,
                 deficit := 0, readily_available_water := none, below_raw := none },
               { date := 5, precipitation := 0, irrigation := 0, evapotranspiration := 200,
                 incoming := 0, net := -200, soil_storage := 0, field_capacity := 100,
                 deficit := 100, readily_available_water := none, below_raw := none }] := by
      norm_num [calculate_water_balance, rowsC10A, sortRows, List.insertionSort,
        List.orderedInsert, dateLe, wbRows, irrDailySum, clampStorage, min_def, max_def]
      exact fun h => nomatch h
    have hB : calculate_water_balance 100 0
        { rows := rowsC10B, hasPrecipitationCol := true,
          hasEt0CorrectedCol := false, hasEt0Col := true } []
        = .ok [{ date := 5, precipitation := 0, irrigation := 0, evapotranspiration := 200,
                 incoming := 0, net := -200, soil_storage := 0, field_capacity := 100,
                 deficit := 100, readily_available_water := none, below_raw := none },
               { date := 5, precipitation := 50, irrigation := 0, evapotranspiration := 0,
                 incoming := 50, net := 50, soil_storage := 50, field_capacity := 100,
                 deficit := 50, readily_available_water := none, below_raw := none }] := by
      norm_num [calculate_water_balance, rowsC10B, sortRows, List.insertionSort,
        List.orderedInsert, dateLe, wbRows, irrDailySum, clampStorage, min_def, max_def]
      exact fun h => nomatch h
    rw [hA, hB]
    decide

/-- C10 amended.  `calculate_water_balance` is invariant under permutations
of the station rows whenever the datetime index has pairwise-distinct
timestamps: the sort canonicalises the order before the sequential bucket
integration.  (With duplicate timestamps the invariance fails; see the
counterexample.) -/
theorem balance_invariant_under_permutation (capacity p : ℚ)
    (rows1 rows2 : List StationRow) (hp hc h0 : Bool) (irr : List (Int × Option ℚ))
    (hperm : rows1.Perm rows2) (hnd : (rows1.map StationRow.date).Nodup) :
    calculate_water_balance capacity p
      { rows := rows1, hasPrecipitationCol := hp,
        hasEt0CorrectedCol := hc, hasEt0Col := h0 } irr
      = calculate_water_balance capacity p
      { rows := rows2, hasPrecipitationCol := hp,
        hasEt0CorrectedCol := hc, hasEt0Col := h0 } irr := by
  by_cases hnil : rows1 = []
  · subst hnil
    have h2 : rows2 = [] := hperm.symm.eq_nil
    rw [h2]
  · have h2 : rows2 ≠ [] := fun hh => hnil (by rw [hh] at hperm; exact hperm.eq_nil)
    have hsort := sortRows_congr_of_perm rows1 rows2 hperm hnd
    simp only [calculate_water_balance, if_neg hnil, if_neg h2]
    rw [hsort]

/-- Witness for `balance_invariant_under_permutation`: two rows with
distinct timestamps produce the same balance in either input order. -/
theorem balance_invariant_under_permutation_witness :
    calculate_water_balance 100 0
      { rows := rowsC10W1, hasPrecipitationCol := true,
        hasEt0CorrectedCol := false, hasEt0Col := true } []
      = calculate_water_balance 100 0
      { rows := rowsC10W2, hasPrecipitationCol := true,
        hasEt0CorrectedCol := false, hasEt0Col := true } [] :=
  balance_invariant_under_permutation 100 0 rowsC10W1 rowsC10W2 true false true []
    (by decide) (by decide)

/-- The `Computing` body never succeeds: its first step, the zero-argument
call to `get_field_capacity` (src/workflow.py line 135), fails to bind the
required `humus_pct` parameter and raises `TypeError`. -/
theorem computingBody_always_fails (db : DBState) (fld : FieldRec) (t : StationTable) :
    computingBody db fld t = .error .typeError := rfl

/-- C3 counterexample.  In `dbC3`, field 1's first irrigation event of the
year is on day 121 (May 1), yet the run loop starts its computation at the
configured `season_start` day 92 (April 1); and field 2, which has no
irrigation event at all, is not skipped — its persisted series is plotted. -/
theorem season_start_claim_counterexample :
    (processField cfgC3 dbC3 fieldC3A (.ok stationC3)).start_date = 92
  ∧ (first_irrigation_event dbC3 1 1 367).map (fun e => e.date) = some 121
  ∧ (92 : Int) ≠ 121
  ∧ get_irrigation_events dbC3 (some 2) none = []
  ∧ (processField cfgC3 dbC3 fieldC3B .raise).emissions
      = [{ fieldName := "C3B", points := [(199, 50)] }] := by
  decide

/-- C3 amended.  The start date of a field's computation is
`max(configured season_start, day after the latest persisted balance date)`;
it does not depend on the irrigation events at all, and a field with no
irrigation events whose window is already caught up still has its persisted
series emitted (it is not skipped). -/
theorem season_start_from_config (cfg : WorkflowConfig) (db : DBState)
    (fld : FieldRec) (fetch : FetchOutcome) :
    (processField cfg db fld fetch).start_date
      = max cfg.season_start
          ((latest_water_balance db.balances fld.id).elim cfg.season_start
            (fun lb => lb.date + 1))
  ∧ (∀ (events2 : List Irrigation) (fetch2 : FetchOutcome),
      (processField cfg { db with events := events2 } fld fetch2).start_date
        = (processField cfg db fld fetch).start_date)
  ∧ (get_irrigation_events db (some fld.id) none = [] →
      min cfg.today cfg.season_end ≤ (processField cfg db fld fetch).start_date →
      db.balances.filter (fun r => decide (r.field_id = fld.id
        ∧ cfg.season_start ≤ r.date ∧ r.date ≤ cfg.season_end)) ≠ [] →
      (processField cfg db fld fetch).emissions ≠ []) := by
  refine ⟨?_, fun _ _ => rfl, ?_⟩
  · cases h : latest_water_balance db.balances fld.id <;>
      simp only [processField, h, Option.elim]
  · intro _ hle hpers
    simp only [processField] at hle ⊢
    rw [if_pos hle]
    cases hw : db.balances.filter (fun r => decide (r.field_id = fld.id
        ∧ cfg.season_start ≤ r.date ∧ r.date ≤ cfg.season_end)) with
    | nil => exact absurd hw hpers
    | cons a l => simp

/-- Witness for `season_start_from_config`: field 2 of `dbC3` has no
irrigation events and is caught up, and its persisted series is emitted. -/
theorem season_start_from_config_witness :
    (processField cfgC3 dbC3 fieldC3B .raise).emissions ≠ [] :=
  (season_start_from_config cfgC3 dbC3 fieldC3B .raise).2.2 (by decide) (by decide) (by decide)

/-- C4 counterexample.  In `dbC4` the station fetch raises during the
`Computing` step: the orchestrator logs the failure, upserts nothing and
leaves the persisted rows unchanged — but it does not emit the previously
persisted series (which exists): the emission list is empty, contradicting
the claim's "still emits the previously persisted series". -/
theorem failed_fallback_counterexample :
    (processField cfgC4 dbC4 fieldC4 .raise).balances = dbC4.balances
  ∧ (processField cfgC4 dbC4 fieldC4 .raise).logs = [.info, .error]
  ∧ dbC4.balances.filter (fun r => decide (r.field_id = fieldC4.id
      ∧ cfgC4.season_start ≤ r.date ∧ r.date ≤ cfgC4.season_end)) ≠ []
  ∧ (processField cfgC4 dbC4 fieldC4 .raise).emissions = [] := by
  decide

/-- C4 amended.  Whenever the `Computing` branch runs (the window is not yet
caught up), the per-field iteration leaves the persisted balance rows
unchanged and emits nothing, whatever the fetch outcome; when the station
fetch raises, the failure is logged.  The previously persisted series is
emitted only in the caught-up branch. -/
theorem computing_failure_no_emission (cfg : WorkflowConfig) (db : DBState)
    (fld : FieldRec) (fetch : FetchOutcome)
    (hwin : (processField cfg db fld fetch).start_date < min cfg.today cfg.season_end) :
    (processField cfg db fld fetch).balances = db.balances
  ∧ (processField cfg db fld fetch).emissions = []
  ∧ (fetch = .raise → (processField cfg db fld fetch).logs = [.info, .error]) := by
  simp only [processField] at hwin ⊢
  rw [if_neg (not_le.mpr hwin)]
  cases fetch with
  | raise => exact ⟨rfl, rfl, fun _ => rfl⟩
  | noData => exact ⟨rfl, rfl, fun h => nomatch h⟩
  | ok t => exact ⟨rfl, rfl, fun h => nomatch h⟩

/-- Witness for `computing_failure_no_emission` at the `dbC4` scenario with
a raising fetch. -/
theorem computing_failure_no_emission_witness :
    (processField cfgC4 dbC4 fieldC4 .raise).balances = dbC4.balances
  ∧ (processField cfgC4 dbC4 fieldC4 .raise).logs = [.info, .error] := by
  have h := computing_failure_no_emission cfgC4 dbC4 fieldC4 .raise (by decide)
  exact ⟨h.1, h.2.2 rfl⟩

/-- Membership in a cleared balance list: the row was already present and
does not belong to the cleared field. -/
theorem mem_clear_water_balance (r : WaterBalanceRec) (bal : List WaterBalanceRec)
    (fid : Nat) (h : r ∈ clear_water_balance_for bal fid) : r ∈ bal ∧ r.field_id ≠ fid := by
  unfold clear_water_balance_for at h
  have h' := List.mem_filter.mp h
  refine ⟨h'.1, ?_⟩
  simpa using h'.2

/-- Every stored event id is strictly below the next fresh id. -/
theorem mem_id_lt_nextEventId (events : List Irrigation) (e : Irrigation)
    (he : e ∈ events) : e.id < nextEventId events := by
  have key : ∀ (l : List Irrigation), e ∈ l →
      e.id ≤ (l.map (fun x => x.id)).foldr Nat.max 0 := by
    intro l
    induction l with
    | nil => intro h; cases h
    | cons a t ih =>
      intro h
      rcases List.mem_cons.mp h with h | h
      · subst h; exact le_max_left _ _
      · exact le_trans (ih h) (le_max_right _ _)
  exact Nat.lt_succ_of_le (key events he)

/-- C9.  Every successful `add_irrigation_event` — creating, updating, or
moving an event — leaves no persisted water-balance row for the event's new
field nor for the field it previously belonged to, and every successful
`delete_irrigation_event` leaves none for the deleted event's field.  Both
operations run inside a single `session_scope` transaction, modelled here as
one atomic state transition.  The hypotheses are the database invariants:
stored field ids are nonzero (SQLite primary keys start at 1, and
`if old_field_id` tests Python truthiness) and event ids are unique
(primary key). -/
theorem irrigation_change_clears_balance :
    (∀ (db : DBState) (field_name : String) (date : Int) (method : String)
       (amount : ℚ) (idArg : Option Nat) (db2 : DBState) (ev : Irrigation),
       (∀ e ∈ db.events, e.field_id ≠ 0) →
       (db.events.map (fun e => e.id)).Nodup →
       add_irrigation_event db field_name date method amount idArg = .ok (db2, ev) →
       ∀ r ∈ db2.balances, r.field_id ≠ ev.field_id
         ∧ ∀ e0 ∈ db.events, e0.id = ev.id → r.field_id ≠ e0.field_id)
  ∧ (∀ (db : DBState) (event_id : Nat) (db2 : DBState),
       (db.events.map (fun e => e.id)).Nodup →
       delete_irrigation_event db event_id = (db2, true) →
       ∀ r ∈ db2.balances, ∀ e ∈ db.events, e.id = event_id → r.field_id ≠ e.field_id) := by
  constructor
  · intro db field_name date method amount idArg db2 ev hpos hnodup heq r hr
    unfold add_irrigation_event at heq
    cases hf : query_field_by_name db field_name with
    | none => rw [hf] at heq; exact Except.noConfusion heq
    | some fld =>
      rw [hf] at heq
      dsimp only [Option.map] at heq
      cases idArg with
      | some i =>
        dsimp only [Option.map] at heq
        cases hfind : db.events.find? (fun e => e.id == i) with
        | none => rw [hfind] at heq; exact Except.noConfusion heq
        | some e1 =>
          rw [hfind] at heq
          have he1mem : e1 ∈ db.events := List.mem_of_find?_eq_some hfind
          dsimp only [Option.map] at heq
          by_cases hcond : e1.field_id ≠ 0 ∧ e1.field_id ≠ fld.id
          · rw [if_pos hcond] at heq
            injection heq with h1
            injection h1 with hdb hev
            subst hdb
            subst hev
            obtain ⟨hr1, hne1⟩ := mem_clear_water_balance _ _ _ hr
            obtain ⟨hr0, hnefld⟩ := mem_clear_water_balance _ _ _ hr1
            refine ⟨hnefld, ?_⟩
            intro e0 he0 hid0
            have he0e1 : e0 = e1 :=
              List.inj_on_of_nodup_map hnodup he0 he1mem hid0
            rw [he0e1]
            exact hne1
          · rw [if_neg hcond] at heq
            injection heq with h1
            injection h1 with hdb hev
            subst hdb
            subst hev
            obtain ⟨hr0, hnefld⟩ := mem_clear_water_balance _ _ _ hr
            refine ⟨hnefld, ?_⟩
            intro e0 he0 hid0
            have he0e1 : e0 = e1 :=
              List.inj_on_of_nodup_map hnodup he0 he1mem hid0
            rcases not_and_or.mp hcond with h | h
            · exact absurd (not_not.mp h) (hpos e1 he1mem)
            · rw [he0e1, not_not.mp h]
              exact hnefld
      | none =>
        dsimp only [Option.map] at heq
        cases hhead : (get_irrigation_events db (some fld.id) (some date)).head? with
        | some e1 =>
          rw [hhead] at heq
          dsimp only [Option.map] at heq
          have he1mem' : e1 ∈ get_irrigation_events db (some fld.id) (some date) :=
            List.mem_of_mem_head? (by rw [hhead]; rfl)
          have he1 : e1 ∈ db.events ∧ e1.field_id = fld.id := by
            unfold get_irrigation_events at he1mem'
            have h2 := List.mem_filter.mp he1mem'
            have h1 := List.mem_filter.mp h2.1
            refine ⟨h1.1, ?_⟩
            simpa using h1.2
          by_cases hcond : e1.field_id ≠ 0 ∧ e1.field_id ≠ fld.id
          · exact absurd he1.2 hcond.2
          · rw [if_neg hcond] at heq
            injection heq with h1
            injection h1 with hdb hev
            subst hdb
            subst hev
            obtain ⟨hr0, hnefld⟩ := mem_clear_water_balance _ _ _ hr
            refine ⟨hnefld, ?_⟩
            intro e0 he0 hid0
            have he0e1 : e0 = e1 :=
              List.inj_on_of_nodup_map hnodup he0 he1.1 hid0
            rw [he0e1, he1.2]
            exact hnefld
        | none =>
          rw [hhead] at heq
          dsimp only [Option.map] at heq
          injection heq with h1
          injection h1 with hdb hev
          subst hdb
          subst hev
          obtain ⟨hr0, hnefld⟩ := mem_clear_water_balance _ _ _ hr
          refine ⟨hnefld, ?_⟩
          intro e0 he0 hid0
          exact absurd hid0 (Nat.ne_of_lt (mem_id_lt_nextEventId db.events e0 he0))
  · intro db event_id db2 hnodup heq r hr e he hid
    unfold delete_irrigation_event at heq
    cases hfind : db.events.find? (fun x => x.id == event_id) with
    | none =>
      rw [hfind] at heq
      injection heq with h1 h2
      exact Bool.noConfusion h2
    | some e1 =>
      rw [hfind] at heq
      injection heq with h1 h2
      subst h1
      have he1mem : e1 ∈ db.events := List.mem_of_find?_eq_some hfind
      have he1id : e1.id = event_id := by simpa using List.find?_some hfind
      have hee1 : e = e1 :=
        List.inj_on_of_nodup_map hnodup he he1mem (by rw [hid, he1id])
      obtain ⟨hr0, hne⟩ := mem_clear_water_balance _ _ _ hr
      rw [hee1]
      exact hne

/-- Witness for `irrigation_change_clears_balance`: in the `dbC9` scenario,
moving event 7 from field 1 to field 2 clears the balances of both fields —
the surviving field-3 row belongs neither to the event's new field nor to
its old one — and deleting event 7 clears field 1's balance. -/
theorem irrigation_change_clears_balance_witness :
    wbRecC9.field_id ≠ evC9r.field_id
  ∧ wbRecC9.field_id ≠ oldEvC9.field_id
  ∧ wbRecC9d.field_id ≠ oldEvC9.field_id := by
  have hadd := irrigation_change_clears_balance.1 dbC9 "C9B" 130 "drip" 25 (some 7)
    dbC9r evC9r (by decide) (by decide) (by decide) wbRecC9 (by decide)
  have hdel := irrigation_change_clears_balance.2 dbC9 7 dbC9d (by decide) (by decide)
    wbRecC9d (by decide) oldEvC9 (by decide) (by decide)
  exact ⟨hadd.1, hadd.2 oldEvC9 (by decide) (by decide), hdel⟩

end IrrigationManager
